import Mathlib

/-!
Verification of the nba-bad-call-tracker front-end fragment.

The repository consists of three declarative artifacts:
  * `app/page.tsx` — a page component returning fixed markup
    (a `main` element containing an `h1` heading and a `p` paragraph);
  * `next.config.js` — a build configuration whose only content is the
    `experimental.allowedDevOrigins` string list;
  * `tailwind.config.js` — a CSS-utility configuration with a content-glob
    list, an empty theme extension and an empty plugin list.

We embed the markup as a tree of element/text nodes, the two configurations
as records, and — since glob matching is performed by external tooling, not
by code of this repository — a glob matcher modelled from the spec's
glossary entry for content globs.
-/

/-- A markup node: an element with a tag, a class attribute and child
nodes, or a literal text node.  This mirrors the JSX structure of
`app/page.tsx`. -/
inductive Node where
  | element (tag : String) (className : String) (children : List Node)
  | text (s : String)

/-- The fixed markup returned by the `Home` component in `app/page.tsx`:
a `main` element containing an `h1` heading and a `p` paragraph, with the
class attributes as written in the source. -/
def homeMarkup : Node :=
  Node.element "main"
    "flex min-h-screen flex-col items-center justify-center p-12 text-center"
    [ Node.element "h1" "text-4xl font-bold mb-6"
        [Node.text "NBA Bad Call Tracker"],
      Node.element "p" "text-lg text-gray-600 dark:text-gray-300 max-w-xl"
        [Node.text "Track and review questionable referee decisions in the final moments of NBA games."] ]

/-- The `Home` page component.  It takes no data (modelled as `Unit`)
and returns the fixed markup; the source has no branching and no
error path, so the embedding returns a plain `Node`. -/
def Home (_ : Unit) : Node := homeMarkup

mutual

/-- All descendant elements (the node itself included) whose tag
satisfies the predicate, in document order. -/
def Node.elemsBy (p : String → Bool) : Node → List Node
  | Node.element t c cs =>
      (if p t then [Node.element t c cs] else []) ++ elemsByList p cs
  | Node.text _ => []

/-- `Node.elemsBy` mapped over a list of nodes, concatenated. -/
def elemsByList (p : String → Bool) : List Node → List Node
  | [] => []
  | n :: ns => Node.elemsBy p n ++ elemsByList p ns

end

mutual

/-- The concatenated literal text of a node's descendants. -/
def Node.textOf : Node → String
  | Node.element _ _ cs => textOfList cs
  | Node.text s => s

/-- `Node.textOf` concatenated over a list of nodes. -/
def textOfList : List Node → String
  | [] => ""
  | n :: ns => Node.textOf n ++ textOfList ns

end

/-- The tag of an element node, `none` for a text node. -/
def Node.tag? : Node → Option String
  | Node.element t _ _ => some t
  | Node.text _ => none

/-- The child nodes of an element, `[]` for a text node. -/
def Node.childNodes : Node → List Node
  | Node.element _ _ cs => cs
  | Node.text _ => []

/-- Whether a tag is one of the HTML heading tags `h1`–`h6`. -/
def isHeadingTag (t : String) : Bool :=
  t == "h1" || t == "h2" || t == "h3" || t == "h4" || t == "h5" || t == "h6"

/-- The `experimental` section of the build configuration
(`next.config.js`). -/
structure ExperimentalConfig where
  allowedDevOrigins : List String

/-- The build configuration object exported by `next.config.js`. -/
structure NextConfig where
  experimental : ExperimentalConfig

/-- The build configuration of the repository, as written in
`next.config.js`. -/
def nextConfig : NextConfig :=
  { experimental :=
      { allowedDevOrigins :=
          [ "http://localhost:3000",
            "http://localhost:3001",
            "http://localhost:3002",
            "http://localhost:3003" ] } }

/-- The `theme` section of the CSS-utility configuration: an `extend`
object, modelled as a key-value list (empty in the source). -/
structure ThemeConfig where
  extend : List (String × String)

/-- The CSS-utility configuration object exported by
`tailwind.config.js`: content globs, theme, plugin list. -/
structure TailwindConfig where
  content : List String
  theme : ThemeConfig
  plugins : List String

/-- The CSS-utility configuration of the repository, as written in
`tailwind.config.js` (the commented-out glob lines are comments and
contribute no elements). -/
def tailwindConfig : TailwindConfig :=
  { content := ["./app/**/*.\x7bjs,ts,jsx,tsx\x7d"],
    theme := { extend := [] },
    plugins := [] }

/-- Modelled from the spec: glob matching is performed by the external
CSS tool, not by code of this repository ("Content glob: a file-path
pattern used by a CSS tool to discover which source files to scan").
`readAlts` scans the characters of a brace group after the opening
brace, returning the comma-separated alternatives and the characters
after the closing brace, or `none` if the group is unclosed. -/
def readAlts : List Char → List Char → Option (List (List Char) × List Char)
  | [], _ => none
  | '\x7d' :: rest, cur => some ([cur.reverse], rest)
  | ',' :: rest, cur =>
      (readAlts rest []).map (fun ar => (cur.reverse :: ar.1, ar.2))
  | c :: rest, cur => readAlts rest (c :: cur)

/-- Modelled from the spec: expand the first brace group of a glob
pattern (the configuration's pattern has exactly one group), yielding
one pattern per alternative.  A pattern without a brace group expands
to itself. -/
def expandBracesGo : List Char → List Char → List String
  | [], pre => [String.mk pre.reverse]
  | '\x7b' :: rest, pre =>
      match readAlts rest [] with
      | some ar => ar.1.map (fun a => String.mk (pre.reverse ++ a ++ ar.2))
      | none => [String.mk (pre.reverse ++ '\x7b' :: rest)]
  | c :: rest, pre => expandBracesGo rest (c :: pre)

/-- Drop the first path segment of a character list: the characters up
to and including the first `/`.  `none` if there is no `/`. -/
def dropSeg : List Char → Option (List Char)
  | [] => none
  | '/' :: rest => some rest
  | _ :: rest => dropSeg rest

/-- Modelled from the spec: fuel-indexed core of the glob matcher.
`**/` matches zero or more whole path segments, `*` matches any
sequence of non-separator characters, any other character matches
itself.  Every recursive call strictly decreases the combined length of
pattern and path, so fuel `pattern.length + path.length + 1` always
suffices. -/
def matchGlobF : Nat → List Char → List Char → Bool
  | 0, _, _ => false
  | _ + 1, [], s => s.isEmpty
  | fuel + 1, '*' :: '*' :: '/' :: pr, s =>
      matchGlobF fuel pr s ||
        (match dropSeg s with
         | some s2 => matchGlobF fuel ('*' :: '*' :: '/' :: pr) s2
         | none => false)
  | fuel + 1, '*' :: pr, s =>
      matchGlobF fuel pr s ||
        (match s with
         | d :: s2 => decide (d ≠ '/') && matchGlobF fuel ('*' :: pr) s2
         | [] => false)
  | fuel + 1, c :: pr, s =>
      match s with
      | d :: s2 => c == d && matchGlobF fuel pr s2
      | [] => false

/-- Whether the first list of characters is a prefix of the second. -/
def isPrefixL : List Char → List Char → Bool
  | [], _ => true
  | _ :: _, [] => false
  | c :: cs, d :: ds => c == d && isPrefixL cs ds

/-- Modelled from the spec: whether a content glob pattern matches a
project-relative file path.  A leading `./` on the pattern is
normalised away and the brace group is expanded into alternatives. -/
def globMatch (pat path : String) : Bool :=
  let pat2 :=
    match pat.data with
    | '.' :: '/' :: rest => rest
    | cs => cs
  (expandBracesGo pat2 []).any
    (fun q => matchGlobF (q.data.length + path.data.length + 1) q.data path.data)

/-- Claim C1: rendering the Home page component produces exactly one
heading element, and its literal text is "NBA Bad Call Tracker"; no
other heading element appears in the returned markup. -/
theorem home_unique_heading :
    (Node.elemsBy isHeadingTag (Home ())).map Node.textOf =
      ["NBA Bad Call Tracker"] := by
  rfl

/-- Claim C2: the markup returned by the Home page component contains
exactly one paragraph element, and its literal text is the exact
descriptive sentence; no other paragraph is present. -/
theorem home_unique_paragraph :
    (Node.elemsBy (fun t => t == "p") (Home ())).map Node.textOf =
      ["Track and review questionable referee decisions in the final moments of NBA games."] := by
  rfl

/-- Claim C3: the build configuration's allowed-dev-origin list is
exactly the four localhost origin strings for ports 3000–3003, in that
order, with no other element. -/
theorem allowed_dev_origins_exact :
    nextConfig.experimental.allowedDevOrigins =
      [ "http://localhost:3000",
        "http://localhost:3001",
        "http://localhost:3002",
        "http://localhost:3003" ] := by
  rfl

/-- Claim C4: the CSS-utility configuration's content-glob list has
exactly one element, the pattern `./app/**/*.{js,ts,jsx,tsx}`, and that
pattern's brace group expands to one pattern per extension `js`, `ts`,
`jsx`, `tsx` under the `app` directory. -/
theorem tailwind_content_single_glob :
    tailwindConfig.content = ["./app/**/*.\x7bjs,ts,jsx,tsx\x7d"] ∧
    expandBracesGo ("./app/**/*.\x7bjs,ts,jsx,tsx\x7d").data [] =
      ["./app/**/*.js", "./app/**/*.ts", "./app/**/*.jsx", "./app/**/*.tsx"] := by
  exact ⟨rfl, rfl⟩

/-- Claim C5: in the CSS-utility configuration, the theme-extension
object is empty and the plugin list is the empty list. -/
theorem tailwind_theme_and_plugins_empty :
    tailwindConfig.theme.extend = [] ∧ tailwindConfig.plugins = [] := by
  exact ⟨rfl, rfl⟩

/-- Claim C6: the Home page component takes no inputs and is
deterministic: any two invocations return the same markup value. -/
theorem home_deterministic : ∀ u v : Unit, Home u = Home v := by
  intro u v
  rfl

/-- Claim C7: the Home page component — the repository's only operation
— is a total function with no error branch: every invocation returns
the fixed markup value, never an error. -/
theorem home_never_fails : ∀ u : Unit, Home u = homeMarkup := by
  intro u
  rfl

/-- Claim C8: the root of the markup returned by the Home page
component is a single `main` element whose children are exactly the
(unique) heading followed by the (unique) paragraph, in that order. -/
theorem home_root_structure :
    Node.tag? (Home ()) = some "main" ∧
    Node.childNodes (Home ()) =
      Node.elemsBy isHeadingTag (Home ()) ++
        Node.elemsBy (fun t => t == "p") (Home ()) := by
  exact ⟨rfl, rfl⟩

/-- Claim C9: every string in the allowed-dev-origin list begins with
`http://localhost:`, the list has no duplicates, and its four port
numbers 3000, 3001, 3002, 3003 are pairwise distinct. -/
theorem allowed_dev_origins_localhost_nodup :
    nextConfig.experimental.allowedDevOrigins.all
        (fun s => isPrefixL ("http://localhost:").data s.data) = true ∧
    nextConfig.experimental.allowedDevOrigins.Nodup ∧
    (nextConfig.experimental.allowedDevOrigins.map (fun s => s.drop 17)) =
      ["3000", "3001", "3002", "3003"] := by
  refine ⟨rfl, ?_, rfl⟩
  decide

/-- Claim C10: the configurations are mutually consistent — the page
component's file path `app/page.tsx` is matched by the single
CSS-utility content glob, so the only source file with class names is
within the scanned content set. -/
theorem page_file_in_content_globs :
    tailwindConfig.content.any (fun pat => globMatch pat "app/page.tsx") = true := by
  rfl
